import Mathlib

/-!
Verification of the event-window bridge (event_window.rs): raw mouse input
decoding with a 50 ms throttle, persisted button-down flags, display-change
message handling, the process-wide sender singleton, and idempotent teardown.

The Rust source is shallowly embedded: the global atomics become explicit
state records, OS calls (GetRawInputData, GetCursorPos, channel send) become
explicit inputs describing their outcome, and u16/u32/u64 arithmetic is done
on Nat with the truncations written out.
-/

/-! ## Windows constants used by the source -/

def RI_MOUSE_LEFT_BUTTON_DOWN : Nat := 0x0001
def RI_MOUSE_LEFT_BUTTON_UP : Nat := 0x0002
def RI_MOUSE_RIGHT_BUTTON_DOWN : Nat := 0x0004
def RI_MOUSE_RIGHT_BUTTON_UP : Nat := 0x0008
def MOUSE_MOVE_RELATIVE : Nat := 0x0000
def MOUSE_MOVE_ABSOLUTE : Nat := 0x0001
def RIM_TYPEMOUSE : Nat := 0
def WM_DISPLAYCHANGE : Nat := 0x007E
def WM_SETTINGCHANGE : Nat := 0x001A
def WM_DEVICECHANGE : Nat := 0x0219
def SPI_SETWORKAREA : Nat := 0x002F
def SPI_ICONVERTICALSPACING : Nat := 0x0018
def DBT_DEVNODES_CHANGED : Nat := 0x0007

/-- The u32::MAX sentinel that GetRawInputData reports for an invalid size. -/
def U32_MAX : Nat := 2 ^ 32 - 1

/-! ## Data model -/

/-- common::Point. -/
structure Point where
  x : Int
  y : Int
deriving DecidableEq, Repr

/-- MouseMoveEvent payload emitted on the platform channel. -/
structure MouseMoveEvent where
  point : Point
  is_mouse_down : Bool
deriving DecidableEq, Repr

/-- The PlatformEvent variants produced by this file of the source. -/
inductive PlatformEvent where
  | DisplaySettingsChanged : PlatformEvent
  | MouseMove : MouseMoveEvent → PlatformEvent
deriving DecidableEq, Repr

/-- The mutable global state read and written by handle_input_msg:
the IS_L_MOUSE_DOWN, IS_R_MOUSE_DOWN and LAST_MOUSE_EVENT_TIME atomics. -/
structure InputState where
  isLMouseDown : Bool
  isRMouseDown : Bool
  lastMouseEventTime : Nat
deriving DecidableEq, Repr

/-- The outcome of one GetRawInputData fetch: the returned byte count, the
written size out-parameter, and the fields of the RAWINPUT record that the
source reads (header.dwType, data.mouse.usFlags, data.mouse.usButtonFlags). -/
structure RawInputRecord where
  resSize : Nat
  rawInputSize : Nat
  dwType : Nat
  usFlags : Nat
  usButtonFlags : Nat
deriving DecidableEq, Repr

/-- The environment of one handle_input_msg call: the millisecond timestamp
computed from SystemTime::now, the fetched raw-input record, the outcome of
GetCursorPos (none = the OS call failed) and whether the channel send
succeeds (false = the receiver is gone). -/
structure InputEnv where
  eventTime : Nat
  raw : RawInputRecord
  cursorPos : Option Point
  sendOk : Bool
deriving DecidableEq, Repr

/-- Result of one handle_input_msg call: the global state afterwards, the
event that reached the channel (if any), and whether the call returned Ok. -/
structure InputOutcome where
  state : InputState
  emitted : Option MouseMoveEvent
  isOk : Bool
deriving DecidableEq, Repr

/-! ## The decoder -/

/-- has_flags from the source: the mask (a u32) is truncated to u16 by the
`as u16` cast and tested for exact containment in the u16 argument. -/
def has_flags (short : Nat) (mask : Nat) : Bool :=
  Nat.land short (mask % 2 ^ 16) == mask % 2 ^ 16

/-- Wrapping u64 subtraction, as release-mode Rust computes
event_time - last_event_time. Both arguments are u64 values. -/
def wrapSub64 (a b : Nat) : Nat :=
  (a + 2 ^ 64 - b % 2 ^ 64) % 2 ^ 64

/-- handle_input_msg from the source, as a function of the call environment
and the mutable global state.  Mirrors the source order: throttle check,
record-validity check, the four button-flag stores, then the motion check,
GetCursorPos, channel send and the LAST_MOUSE_EVENT_TIME store. -/
def handle_input_msg (env : InputEnv) (st : InputState) : InputOutcome :=
  if wrapSub64 env.eventTime st.lastMouseEventTime < 50 then
    ⟨st, none, true⟩
  else if env.raw.resSize = 0 ∨ env.raw.rawInputSize = U32_MAX
      ∨ env.raw.dwType ≠ RIM_TYPEMOUSE then
    ⟨st, none, true⟩
  else
    let bf := env.raw.usButtonFlags
    let l1 := if has_flags bf RI_MOUSE_LEFT_BUTTON_DOWN then true
      else st.isLMouseDown
    let l2 := if has_flags bf RI_MOUSE_LEFT_BUTTON_UP then false else l1
    let r1 := if has_flags bf RI_MOUSE_RIGHT_BUTTON_DOWN then true
      else st.isRMouseDown
    let r2 := if has_flags bf RI_MOUSE_RIGHT_BUTTON_UP then false else r1
    if has_flags env.raw.usFlags MOUSE_MOVE_RELATIVE
        || has_flags env.raw.usFlags MOUSE_MOVE_ABSOLUTE then
      match env.cursorPos with
      | none => ⟨⟨l2, r2, st.lastMouseEventTime⟩, none, false⟩
      | some pt =>
        if env.sendOk then
          ⟨⟨l2, r2, env.eventTime⟩, some ⟨pt, l2 || r2⟩, true⟩
        else
          ⟨⟨l2, r2, st.lastMouseEventTime⟩, none, false⟩
    else
      ⟨⟨l2, r2, st.lastMouseEventTime⟩, none, true⟩

/-! ## The display-change handler -/

/-- handle_display_change_msg from the source: decides emission from the
message kind and the wparam discriminant (truncated to u32 by the `as u32`
casts), then sends DisplaySettingsChanged.  Returns the event that reached
the channel and whether the call returned Ok (send failure is an Err). -/
def handle_display_change_msg (message : Nat) (wparam : Nat)
    (sendOk : Bool) : Option PlatformEvent × Bool :=
  let should_emit_event : Bool :=
    if message == WM_SETTINGCHANGE then
      wparam % 2 ^ 32 == SPI_SETWORKAREA
        || wparam % 2 ^ 32 == SPI_ICONVERTICALSPACING
    else if message == WM_DEVICECHANGE then
      wparam % 2 ^ 32 == DBT_DEVNODES_CHANGED
    else true
  if should_emit_event then
    if sendOk then (some PlatformEvent.DisplaySettingsChanged, true)
    else (none, false)
  else (none, true)

/-! ## Lifecycle: construction and teardown -/

/-- The sender half of the platform event channel, abstracted. -/
structure Sender where
  id : Nat
deriving DecidableEq, Repr

/-- Errors surfaced by EventWindow construction. -/
inductive CreateError where
  | hookFailure : CreateError
  | alreadyInitialized : CreateError
deriving DecidableEq, Repr

/-- EventWindow::new, restricted to its effect on the PLATFORM_EVENT_TX
OnceLock.  hooksOk reports whether the KeyboardHook and WinEventHook
constructors (run before the OnceLock set) succeed.  Returns the OnceLock
content afterwards and the construction result; OnceLock.set on a full cell
fails and leaves the stored sender in place, which the source maps to the
already-set error. -/
def EventWindow.new (hooksOk : Bool) (newTx : Sender)
    (txSlot : Option Sender) : Option Sender × Except CreateError Unit :=
  if hooksOk = false then (txSlot, Except.error CreateError.hookFailure)
  else
    match txSlot with
    | some existing =>
      (some existing, Except.error CreateError.alreadyInitialized)
    | none => (some newTx, Except.ok ())

/-- The window thread held by EventWindow, abstracted by the outcomes of the
operations destroy performs on it: whether kill_message_loop succeeds,
whether join succeeds, and the terminal result the thread returned. -/
structure WindowThread where
  killOk : Bool
  joinOk : Bool
  threadResult : Except Unit Unit
deriving Repr

/-- Errors surfaced by EventWindow::destroy. -/
inductive DestroyError where
  | killFailure : DestroyError
  | joinFailure : DestroyError
  | threadFailure : DestroyError
deriving DecidableEq, Repr

/-- Result of one destroy call: the window_thread field afterwards (take()
runs first, so it is always none), the call result, and whether a join of
the thread was attempted. -/
structure DestroyOutcome where
  windowThread : Option WindowThread
  result : Except DestroyError Unit
  joined : Bool
deriving Repr

/-- EventWindow::destroy from the source: Option::take on window_thread,
then kill_message_loop and join only when a thread was present. -/
def EventWindow.destroy (wt : Option WindowThread) : DestroyOutcome :=
  match wt with
  | none => ⟨none, Except.ok (), false⟩
  | some t =>
    if t.killOk = false then ⟨none, Except.error DestroyError.killFailure, false⟩
    else if t.joinOk = false then
      ⟨none, Except.error DestroyError.joinFailure, true⟩
    else
      match t.threadResult with
      | Except.error _ => ⟨none, Except.error DestroyError.threadFailure, true⟩
      | Except.ok _ => ⟨none, Except.ok (), true⟩

/-! ## Traces of handle_input_msg calls (for the throttle claim) -/

/-- The emissions of a sequence of handle_input_msg calls, each paired with
the millisecond timestamp the emitting call computed; the global state is
threaded through the calls. -/
def emissions (st : InputState) : List InputEnv → List (Nat × MouseMoveEvent)
  | [] => []
  | env :: rest =>
    match (handle_input_msg env st).emitted with
    | some e =>
      (env.eventTime, e) :: emissions (handle_input_msg env st).state rest
    | none => emissions (handle_input_msg env st).state rest

/-- Net effect of the two left-button stores of handle_input_msg. -/
def updatedL (bf : Nat) (old : Bool) : Bool :=
  if has_flags bf RI_MOUSE_LEFT_BUTTON_UP then false
  else if has_flags bf RI_MOUSE_LEFT_BUTTON_DOWN then true
  else old

/-- Net effect of the two right-button stores of handle_input_msg. -/
def updatedR (bf : Nat) (old : Bool) : Bool :=
  if has_flags bf RI_MOUSE_RIGHT_BUTTON_UP then false
  else if has_flags bf RI_MOUSE_RIGHT_BUTTON_DOWN then true
  else old

/-! ## Concrete inputs used to evaluate the development -/

/-- Initial global state: both buttons up, last emission at time 0. -/
def st0 : InputState := ⟨false, false, 0⟩

/-- A valid mouse record carrying the left-button-down transition. -/
def recDown : RawInputRecord := ⟨48, 48, 0, 1, 1⟩

/-- A call at 100 ms with recDown, cursor query and send succeeding. -/
def envDown : InputEnv := ⟨100, recDown, some ⟨5, 7⟩, true⟩

/-- A valid mouse record carrying down and up transitions of both buttons. -/
def recBoth : RawInputRecord := ⟨48, 48, 0, 1, 15⟩

/-- A call at 100 ms with recBoth, cursor query and send succeeding. -/
def envBoth : InputEnv := ⟨100, recBoth, some ⟨5, 7⟩, true⟩

/-- A record whose type is not the mouse type. -/
def recBad : RawInputRecord := ⟨48, 48, 1, 1, 1⟩

/-- A call at 100 ms carrying the non-mouse record. -/
def envBad : InputEnv := ⟨100, recBad, some ⟨5, 7⟩, true⟩

/-- Three motion notifications at 100, 120 and 160 ms: the middle one falls
inside the 50 ms window of the first. -/
def envSeq : List InputEnv :=
  [⟨100, ⟨48, 48, 0, 1, 0⟩, some ⟨1, 1⟩, true⟩,
   ⟨120, ⟨48, 48, 0, 1, 0⟩, some ⟨2, 2⟩, true⟩,
   ⟨160, ⟨48, 48, 0, 1, 0⟩, some ⟨3, 3⟩, true⟩]

/-! ## Helper lemmas -/

/-- For every mask below 2 ^ 16 the truncating cast in has_flags is the
identity, so has_flags is the exact-containment test. -/
lemma has_flags_iff_of_lt (B M : Nat) (hM : M < 2 ^ 16) :
    has_flags B M = true ↔ Nat.land B M = M := by
  unfold has_flags
  rw [Nat.mod_eq_of_lt hM]
  exact beq_iff_eq

/-- The relative-motion mask is zero, so its containment test always holds. -/
lemma has_flags_relative (B : Nat) :
    has_flags B MOUSE_MOVE_RELATIVE = true := by
  simp [has_flags, MOUSE_MOVE_RELATIVE, Nat.land]

/-- On u64 values with no rollback, the wrapping subtraction is plain
subtraction. -/
lemma wrapSub64_eq_sub (a b : Nat) (hba : b ≤ a) (ha : a < 2 ^ 64) :
    wrapSub64 a b = a - b := by
  unfold wrapSub64
  rw [Nat.mod_eq_of_lt (lt_of_le_of_lt hba ha)]
  have h1 : a + 2 ^ 64 - b = a - b + 2 ^ 64 := by omega
  rw [h1, Nat.add_mod_right]
  exact Nat.mod_eq_of_lt (by omega)

/-- Value of handle_input_msg past the throttle and validity checks. -/
lemma handle_input_msg_eq_of_valid (env : InputEnv) (st : InputState)
    (hthr : ¬ wrapSub64 env.eventTime st.lastMouseEventTime < 50)
    (hv : ¬ (env.raw.resSize = 0 ∨ env.raw.rawInputSize = U32_MAX
      ∨ env.raw.dwType ≠ RIM_TYPEMOUSE)) :
    handle_input_msg env st =
      if has_flags env.raw.usFlags MOUSE_MOVE_RELATIVE
          || has_flags env.raw.usFlags MOUSE_MOVE_ABSOLUTE then
        match env.cursorPos with
        | none =>
          ⟨⟨updatedL env.raw.usButtonFlags st.isLMouseDown,
            updatedR env.raw.usButtonFlags st.isRMouseDown,
            st.lastMouseEventTime⟩, none, false⟩
        | some pt =>
          if env.sendOk then
            ⟨⟨updatedL env.raw.usButtonFlags st.isLMouseDown,
              updatedR env.raw.usButtonFlags st.isRMouseDown,
              env.eventTime⟩,
             some ⟨pt, updatedL env.raw.usButtonFlags st.isLMouseDown
               || updatedR env.raw.usButtonFlags st.isRMouseDown⟩, true⟩
          else
            ⟨⟨updatedL env.raw.usButtonFlags st.isLMouseDown,
              updatedR env.raw.usButtonFlags st.isRMouseDown,
              st.lastMouseEventTime⟩, none, false⟩
      else
        ⟨⟨updatedL env.raw.usButtonFlags st.isLMouseDown,
          updatedR env.raw.usButtonFlags st.isRMouseDown,
          st.lastMouseEventTime⟩, none, true⟩ := by
  unfold handle_input_msg updatedL updatedR
  rw [if_neg hthr, if_neg hv]

/-- The left flag after a valid call is the net effect of the two stores. -/
lemma handle_input_msg_isL (env : InputEnv) (st : InputState)
    (hthr : ¬ wrapSub64 env.eventTime st.lastMouseEventTime < 50)
    (hv : ¬ (env.raw.resSize = 0 ∨ env.raw.rawInputSize = U32_MAX
      ∨ env.raw.dwType ≠ RIM_TYPEMOUSE)) :
    (handle_input_msg env st).state.isLMouseDown
      = updatedL env.raw.usButtonFlags st.isLMouseDown := by
  rw [handle_input_msg_eq_of_valid env st hthr hv]
  split
  · split
    · rfl
    · split <;> rfl
  · rfl

/-- The right flag after a valid call is the net effect of the two stores. -/
lemma handle_input_msg_isR (env : InputEnv) (st : InputState)
    (hthr : ¬ wrapSub64 env.eventTime st.lastMouseEventTime < 50)
    (hv : ¬ (env.raw.resSize = 0 ∨ env.raw.rawInputSize = U32_MAX
      ∨ env.raw.dwType ≠ RIM_TYPEMOUSE)) :
    (handle_input_msg env st).state.isRMouseDown
      = updatedR env.raw.usButtonFlags st.isRMouseDown := by
  rw [handle_input_msg_eq_of_valid env st hthr hv]
  split
  · split
    · rfl
    · split <;> rfl
  · rfl

/-- Dichotomy: a call either emits nothing and keeps LAST_MOUSE_EVENT_TIME,
or emits and stores its own timestamp, having passed the throttle. -/
lemma handle_input_msg_last_time (env : InputEnv) (st : InputState) :
    ((handle_input_msg env st).emitted = none
      ∧ (handle_input_msg env st).state.lastMouseEventTime
          = st.lastMouseEventTime)
    ∨ ((handle_input_msg env st).emitted.isSome = true
      ∧ (handle_input_msg env st).state.lastMouseEventTime = env.eventTime
      ∧ ¬ wrapSub64 env.eventTime st.lastMouseEventTime < 50) := by
  by_cases hthr : wrapSub64 env.eventTime st.lastMouseEventTime < 50
  · left
    unfold handle_input_msg
    rw [if_pos hthr]
    exact ⟨rfl, rfl⟩
  · by_cases hv : env.raw.resSize = 0 ∨ env.raw.rawInputSize = U32_MAX
      ∨ env.raw.dwType ≠ RIM_TYPEMOUSE
    · left
      unfold handle_input_msg
      rw [if_neg hthr, if_pos hv]
      exact ⟨rfl, rfl⟩
    · rw [handle_input_msg_eq_of_valid env st hthr hv]
      split
      · cases hc : env.cursorPos with
        | none => left; exact ⟨rfl, rfl⟩
        | some pt =>
          cases hs : env.sendOk with
          | true => right; exact ⟨rfl, rfl, hthr⟩
          | false => left; exact ⟨rfl, rfl⟩
      · left; exact ⟨rfl, rfl⟩

/-- A non-emitting call leaves LAST_MOUSE_EVENT_TIME unchanged. -/
lemma handle_input_msg_emitted_none (env : InputEnv) (st : InputState)
    (h : (handle_input_msg env st).emitted = none) :
    (handle_input_msg env st).state.lastMouseEventTime
      = st.lastMouseEventTime := by
  rcases handle_input_msg_last_time env st with ⟨_, h2⟩ | ⟨h1, _, _⟩
  · exact h2
  · rw [h] at h1; simp at h1

/-- An emitting call passed the throttle and stored its own timestamp. -/
lemma handle_input_msg_emitted_some (env : InputEnv) (st : InputState)
    (e : MouseMoveEvent) (h : (handle_input_msg env st).emitted = some e) :
    (handle_input_msg env st).state.lastMouseEventTime = env.eventTime
    ∧ ¬ wrapSub64 env.eventTime st.lastMouseEventTime < 50 := by
  rcases handle_input_msg_last_time env st with ⟨h1, _⟩ | ⟨_, h2, h3⟩
  · rw [h] at h1; simp at h1
  · exact ⟨h2, h3⟩

/-- In a timestamp-ordered trace the head timestamp bounds every later one. -/
lemma chain_head_le (env : InputEnv) (rest : List InputEnv)
    (h : List.Chain' (fun a b : InputEnv => a.eventTime ≤ b.eventTime)
      (env :: rest)) :
    ∀ e ∈ rest, env.eventTime ≤ e.eventTime := by
  induction rest generalizing env with
  | nil => intro e he; simp at he
  | cons b l ih =>
    intro e he
    rw [List.chain'_cons] at h
    rcases List.mem_cons.mp he with rfl | hm
    · exact h.1
    · exact le_trans h.1 (ih b h.2 e hm)

/-- Spacing invariant of a trace: every emission is at least 50 ms after the
stored last-emission time, and consecutive emissions are 50 ms apart. -/
lemma emissions_spacing (envs : List InputEnv) : ∀ st : InputState,
    List.Chain' (fun a b : InputEnv => a.eventTime ≤ b.eventTime) envs →
    (∀ e ∈ envs, e.eventTime < 2 ^ 64) →
    (∀ e ∈ envs, st.lastMouseEventTime ≤ e.eventTime) →
    st.lastMouseEventTime < 2 ^ 64 →
    (∀ p ∈ emissions st envs, st.lastMouseEventTime + 50 ≤ p.1)
    ∧ List.Pairwise (fun p q : Nat × MouseMoveEvent => p.1 + 50 ≤ q.1)
        (emissions st envs) := by
  induction envs with
  | nil =>
    intro st _ _ _ _
    constructor
    · intro p hp; simp [emissions] at hp
    · simp [emissions]
  | cons env rest ih =>
    intro st hchain hbound hlast hstb
    have hchain2 := hchain.tail
    have hbound2 : ∀ e ∈ rest, e.eventTime < 2 ^ 64 := fun e he =>
      hbound e (List.mem_cons_of_mem env he)
    have henv : st.lastMouseEventTime ≤ env.eventTime :=
      hlast env (List.mem_cons_self env rest)
    have henvb : env.eventTime < 2 ^ 64 :=
      hbound env (List.mem_cons_self env rest)
    cases hout : (handle_input_msg env st).emitted with
    | none =>
      have hkeep := handle_input_msg_emitted_none env st hout
      have hlast2 : ∀ e ∈ rest,
          (handle_input_msg env st).state.lastMouseEventTime
            ≤ e.eventTime := by
        intro e he
        rw [hkeep]
        exact hlast e (List.mem_cons_of_mem env he)
      have hstb2 : (handle_input_msg env st).state.lastMouseEventTime
          < 2 ^ 64 := by rw [hkeep]; exact hstb
      obtain ⟨hinv, hpw⟩ :=
        ih (handle_input_msg env st).state hchain2 hbound2 hlast2 hstb2
      have hemeq : emissions st (env :: rest)
          = emissions (handle_input_msg env st).state rest := by
        simp [emissions, hout]
      rw [hemeq]
      constructor
      · intro p hp
        have := hinv p hp
        rw [hkeep] at this
        exact this
      · exact hpw
    | some e =>
      obtain ⟨hstore, hthr⟩ := handle_input_msg_emitted_some env st e hout
      have hgap : st.lastMouseEventTime + 50 ≤ env.eventTime := by
        rw [wrapSub64_eq_sub env.eventTime st.lastMouseEventTime henv henvb]
          at hthr
        omega
      have hlast2 : ∀ e2 ∈ rest,
          (handle_input_msg env st).state.lastMouseEventTime
            ≤ e2.eventTime := by
        intro e2 he2
        rw [hstore]
        exact chain_head_le env rest hchain e2 he2
      have hstb2 : (handle_input_msg env st).state.lastMouseEventTime
          < 2 ^ 64 := by rw [hstore]; exact henvb
      obtain ⟨hinv, hpw⟩ :=
        ih (handle_input_msg env st).state hchain2 hbound2 hlast2 hstb2
      have hemeq : emissions st (env :: rest)
          = (env.eventTime, e)
            :: emissions (handle_input_msg env st).state rest := by
        simp [emissions, hout]
      rw [hemeq]
      constructor
      · intro p hp
        rcases List.mem_cons.mp hp with rfl | hm
        · exact hgap
        · have := hinv p hm
          rw [hstore] at this
          omega
      · refine List.Pairwise.cons ?_ hpw
        intro q hq
        have := hinv q hq
        rw [hstore] at this
        exact this

/-- destroy always leaves the window_thread slot empty: Option::take runs
before any fallible step. -/
lemma destroy_windowThread_none (wt : Option WindowThread) :
    (EventWindow.destroy wt).windowThread = none := by
  cases wt with
  | none => rfl
  | some t =>
    by_cases hk : t.killOk = false
    · simp [EventWindow.destroy, hk]
    · by_cases hj : t.joinOk = false
      · simp [EventWindow.destroy, hk, hj]
      · cases ht : t.threadResult with
        | error e => simp [EventWindow.destroy, hk, hj, ht]
        | ok u => simp [EventWindow.destroy, hk, hj, ht]

/-! ## Claim theorems -/

/-- Claim C1: past the throttle, on a valid mouse record with the cursor
query and the channel send succeeding, handle_input_msg emits a MouseMove
exactly when the motion bitmask contains the relative or the absolute
motion mask, and the emitted is_mouse_down equals the OR of the persisted
left and right button flags at emission time (after the stores of this
call). -/
theorem mouse_move_emission (env : InputEnv) (st : InputState)
    (hthr : ¬ wrapSub64 env.eventTime st.lastMouseEventTime < 50)
    (hv : ¬ (env.raw.resSize = 0 ∨ env.raw.rawInputSize = U32_MAX
      ∨ env.raw.dwType ≠ RIM_TYPEMOUSE))
    (pt : Point) (hcur : env.cursorPos = some pt)
    (hsend : env.sendOk = true) :
    ((handle_input_msg env st).emitted.isSome = true ↔
      (has_flags env.raw.usFlags MOUSE_MOVE_RELATIVE = true
        ∨ has_flags env.raw.usFlags MOUSE_MOVE_ABSOLUTE = true))
    ∧ (∀ e, (handle_input_msg env st).emitted = some e →
        e.is_mouse_down
          = ((handle_input_msg env st).state.isLMouseDown
            || (handle_input_msg env st).state.isRMouseDown)) := by
  have h := handle_input_msg_eq_of_valid env st hthr hv
  have hmot : (has_flags env.raw.usFlags MOUSE_MOVE_RELATIVE
      || has_flags env.raw.usFlags MOUSE_MOVE_ABSOLUTE) = true := by
    rw [has_flags_relative]
    exact Bool.true_or _
  rw [hcur, if_pos hmot, hsend] at h
  rw [h]
  refine ⟨⟨fun _ => Or.inl (has_flags_relative _), fun _ => rfl⟩, ?_⟩
  intro e he
  injection he with he2
  rw [← he2]
  rfl

/-- Witness for C1: the left-button-down record at 100 ms from the fresh
state emits, and the emitted event reports the mouse as down. -/
theorem mouse_move_emission_witness :
    (¬ wrapSub64 envDown.eventTime st0.lastMouseEventTime < 50)
    ∧ (¬ (envDown.raw.resSize = 0 ∨ envDown.raw.rawInputSize = U32_MAX
      ∨ envDown.raw.dwType ≠ RIM_TYPEMOUSE))
    ∧ envDown.cursorPos = some ⟨5, 7⟩
    ∧ envDown.sendOk = true
    ∧ (((handle_input_msg envDown st0).emitted.isSome = true ↔
        (has_flags envDown.raw.usFlags MOUSE_MOVE_RELATIVE = true
          ∨ has_flags envDown.raw.usFlags MOUSE_MOVE_ABSOLUTE = true))
      ∧ (∀ e, (handle_input_msg envDown st0).emitted = some e →
          e.is_mouse_down
            = ((handle_input_msg envDown st0).state.isLMouseDown
              || (handle_input_msg envDown st0).state.isRMouseDown))) :=
  ⟨by decide, by decide, by decide, by decide,
   mouse_move_emission envDown st0 (by decide) (by decide) ⟨5, 7⟩
     (by decide) (by decide)⟩

/-- Claim C2: for every 16-bit bitmask and each of the masks the decoder
passes to it (the four button-transition masks and the two motion masks),
has_flags decides exact containment of the mask bits, not mere overlap. -/
theorem has_flags_exact_containment (B M : Nat) (hB : B < 2 ^ 16)
    (hM : M = RI_MOUSE_LEFT_BUTTON_DOWN ∨ M = RI_MOUSE_LEFT_BUTTON_UP
      ∨ M = RI_MOUSE_RIGHT_BUTTON_DOWN ∨ M = RI_MOUSE_RIGHT_BUTTON_UP
      ∨ M = MOUSE_MOVE_RELATIVE ∨ M = MOUSE_MOVE_ABSOLUTE) :
    has_flags B M = true ↔ Nat.land B M = M := by
  rcases hM with rfl | rfl | rfl | rfl | rfl | rfl <;>
    exact has_flags_iff_of_lt B _ (by decide)

/-- Witness for C2: bitmask 6 overlaps the left-up mask 2 and contains it;
applied at a concrete bitmask and mask. -/
theorem has_flags_exact_containment_witness :
    (6 : Nat) < 2 ^ 16
    ∧ (RI_MOUSE_LEFT_BUTTON_UP = RI_MOUSE_LEFT_BUTTON_DOWN
      ∨ RI_MOUSE_LEFT_BUTTON_UP = RI_MOUSE_LEFT_BUTTON_UP
      ∨ RI_MOUSE_LEFT_BUTTON_UP = RI_MOUSE_RIGHT_BUTTON_DOWN
      ∨ RI_MOUSE_LEFT_BUTTON_UP = RI_MOUSE_RIGHT_BUTTON_UP
      ∨ RI_MOUSE_LEFT_BUTTON_UP = MOUSE_MOVE_RELATIVE
      ∨ RI_MOUSE_LEFT_BUTTON_UP = MOUSE_MOVE_ABSOLUTE)
    ∧ (has_flags 6 RI_MOUSE_LEFT_BUTTON_UP = true
      ↔ Nat.land 6 RI_MOUSE_LEFT_BUTTON_UP = RI_MOUSE_LEFT_BUTTON_UP) :=
  ⟨by decide, by decide,
   has_flags_exact_containment 6 RI_MOUSE_LEFT_BUTTON_UP (by decide)
     (by decide)⟩

/-- Claim C3: a call inside the 50 ms window of the stored last emission
returns immediately with nothing emitted and the state unchanged, and on
any timestamp-ordered trace (no clock rollback) every two emitted MouseMove
events are at least 50 ms apart. -/
theorem mouse_move_throttle (st : InputState) (envs : List InputEnv)
    (hchain : List.Chain' (fun a b : InputEnv => a.eventTime ≤ b.eventTime)
      envs)
    (hbound : ∀ e ∈ envs, e.eventTime < 2 ^ 64)
    (hlast : ∀ e ∈ envs, st.lastMouseEventTime ≤ e.eventTime)
    (hstb : st.lastMouseEventTime < 2 ^ 64) :
    (∀ env2 st2, wrapSub64 env2.eventTime st2.lastMouseEventTime < 50 →
      handle_input_msg env2 st2 = ⟨st2, none, true⟩)
    ∧ List.Pairwise (fun p q : Nat × MouseMoveEvent => p.1 + 50 ≤ q.1)
        (emissions st envs) := by
  constructor
  · intro env2 st2 h2
    unfold handle_input_msg
    rw [if_pos h2]
  · exact (emissions_spacing envs st hchain hbound hlast hstb).2

/-- Witness for C3: three notifications at 100, 120 and 160 ms from the
fresh state; the resulting emissions are pairwise at least 50 ms apart. -/
theorem mouse_move_throttle_witness :
    List.Chain' (fun a b : InputEnv => a.eventTime ≤ b.eventTime) envSeq
    ∧ (∀ e ∈ envSeq, e.eventTime < 2 ^ 64)
    ∧ (∀ e ∈ envSeq, st0.lastMouseEventTime ≤ e.eventTime)
    ∧ st0.lastMouseEventTime < 2 ^ 64
    ∧ List.Pairwise (fun p q : Nat × MouseMoveEvent => p.1 + 50 ≤ q.1)
        (emissions st0 envSeq) :=
  ⟨by simp [envSeq, List.chain'_cons], by decide, by decide, by decide,
   (mouse_move_throttle st0 envSeq (by simp [envSeq, List.chain'_cons])
     (by decide) (by decide) (by decide)).2⟩

/-- Claim C4: constructing a second EventWindow while a sender is already
installed (the hook constructors succeeding) fails with the
already-initialized error and keeps the first sender installed. -/
theorem EventWindow.new_already_initialized (existing newTx : Sender) :
    EventWindow.new true newTx (some existing)
      = (some existing, Except.error CreateError.alreadyInitialized) := rfl

/-- Claim C5: LAST_MOUSE_EVENT_TIME is stored (with the timestamp the call
computed) exactly on calls whose MouseMove reached the channel; a call that
emits nothing — throttled, invalid or motionless record, cursor-query or
send failure — leaves it unchanged. -/
theorem last_time_updated_iff_emitted (env : InputEnv) (st : InputState) :
    ((handle_input_msg env st).emitted = none →
      (handle_input_msg env st).state.lastMouseEventTime
        = st.lastMouseEventTime)
    ∧ (∀ e, (handle_input_msg env st).emitted = some e →
      (handle_input_msg env st).state.lastMouseEventTime
        = env.eventTime) :=
  ⟨handle_input_msg_emitted_none env st,
   fun e he => (handle_input_msg_emitted_some env st e he).1⟩

/-- Witness for C5: the emitting call at 100 ms stores timestamp 100. -/
theorem last_time_updated_iff_emitted_witness :
    (handle_input_msg envDown st0).emitted
      = some ⟨⟨5, 7⟩, true⟩
    ∧ (handle_input_msg envDown st0).state.lastMouseEventTime
      = envDown.eventTime :=
  ⟨by decide,
   (last_time_updated_iff_emitted envDown st0).2 ⟨⟨5, 7⟩, true⟩ (by decide)⟩

/-- Claim C6: past the throttle and validity checks, a down transition sets
the corresponding persisted flag (absent an overriding up transition in the
same record), an up transition clears it, and a flag with neither
transition present keeps its previous value. -/
theorem button_flag_transitions (env : InputEnv) (st : InputState)
    (hthr : ¬ wrapSub64 env.eventTime st.lastMouseEventTime < 50)
    (hv : ¬ (env.raw.resSize = 0 ∨ env.raw.rawInputSize = U32_MAX
      ∨ env.raw.dwType ≠ RIM_TYPEMOUSE)) :
    (has_flags env.raw.usButtonFlags RI_MOUSE_LEFT_BUTTON_DOWN = true →
      has_flags env.raw.usButtonFlags RI_MOUSE_LEFT_BUTTON_UP = false →
      (handle_input_msg env st).state.isLMouseDown = true)
    ∧ (has_flags env.raw.usButtonFlags RI_MOUSE_LEFT_BUTTON_UP = true →
      (handle_input_msg env st).state.isLMouseDown = false)
    ∧ (has_flags env.raw.usButtonFlags RI_MOUSE_LEFT_BUTTON_DOWN = false →
      has_flags env.raw.usButtonFlags RI_MOUSE_LEFT_BUTTON_UP = false →
      (handle_input_msg env st).state.isLMouseDown = st.isLMouseDown)
    ∧ (has_flags env.raw.usButtonFlags RI_MOUSE_RIGHT_BUTTON_DOWN = true →
      has_flags env.raw.usButtonFlags RI_MOUSE_RIGHT_BUTTON_UP = false →
      (handle_input_msg env st).state.isRMouseDown = true)
    ∧ (has_flags env.raw.usButtonFlags RI_MOUSE_RIGHT_BUTTON_UP = true →
      (handle_input_msg env st).state.isRMouseDown = false)
    ∧ (has_flags env.raw.usButtonFlags RI_MOUSE_RIGHT_BUTTON_DOWN = false →
      has_flags env.raw.usButtonFlags RI_MOUSE_RIGHT_BUTTON_UP = false →
      (handle_input_msg env st).state.isRMouseDown = st.isRMouseDown) := by
  have hL := handle_input_msg_isL env st hthr hv
  have hR := handle_input_msg_isR env st hthr hv
  refine ⟨fun h1 h2 => ?_, fun h1 => ?_, fun h1 h2 => ?_,
    fun h1 h2 => ?_, fun h1 => ?_, fun h1 h2 => ?_⟩
  · rw [hL]; simp [updatedL, h1, h2]
  · rw [hL]; simp [updatedL, h1]
  · rw [hL]; simp [updatedL, h1, h2]
  · rw [hR]; simp [updatedR, h1, h2]
  · rw [hR]; simp [updatedR, h1]
  · rw [hR]; simp [updatedR, h1, h2]

/-- Witness for C6: the left-down record sets the left flag and leaves the
right flag at its previous value. -/
theorem button_flag_transitions_witness :
    (¬ wrapSub64 envDown.eventTime st0.lastMouseEventTime < 50)
    ∧ has_flags envDown.raw.usButtonFlags RI_MOUSE_LEFT_BUTTON_DOWN = true
    ∧ has_flags envDown.raw.usButtonFlags RI_MOUSE_LEFT_BUTTON_UP = false
    ∧ (handle_input_msg envDown st0).state.isLMouseDown = true
    ∧ (handle_input_msg envDown st0).state.isRMouseDown
      = st0.isRMouseDown :=
  ⟨by decide, by decide, by decide,
   (button_flag_transitions envDown st0 (by decide) (by decide)).1
     (by decide) (by decide),
   (button_flag_transitions envDown st0 (by decide)
     (by decide)).2.2.2.2.2 (by decide) (by decide)⟩

/-- Claim C7: a generic display-change message always emits
DisplaySettingsChanged; a settings-change message emits exactly for the
work-area and icon-vertical-spacing discriminants; a device-change message
emits exactly for the device-nodes-changed discriminant; every other
discriminant of those two message kinds emits nothing. -/
theorem display_change_classification (w : Nat) :
    (handle_display_change_msg WM_DISPLAYCHANGE w true).1
      = some PlatformEvent.DisplaySettingsChanged
    ∧ (handle_display_change_msg WM_SETTINGCHANGE w true).1
      = (if w % 2 ^ 32 = SPI_SETWORKAREA
            ∨ w % 2 ^ 32 = SPI_ICONVERTICALSPACING
         then some PlatformEvent.DisplaySettingsChanged else none)
    ∧ (handle_display_change_msg WM_DEVICECHANGE w true).1
      = (if w % 2 ^ 32 = DBT_DEVNODES_CHANGED
         then some PlatformEvent.DisplaySettingsChanged else none) := by
  refine ⟨rfl, ?_, ?_⟩
  · cases hb : (w % 2 ^ 32 == SPI_SETWORKAREA
        || w % 2 ^ 32 == SPI_ICONVERTICALSPACING) with
    | true =>
      have hp : w % 2 ^ 32 = SPI_SETWORKAREA
          ∨ w % 2 ^ 32 = SPI_ICONVERTICALSPACING := by
        rcases Bool.or_eq_true_iff.mp hb with h | h
        · exact Or.inl (eq_of_beq h)
        · exact Or.inr (eq_of_beq h)
      rw [if_pos hp]
      show (if (w % 2 ^ 32 == SPI_SETWORKAREA
          || w % 2 ^ 32 == SPI_ICONVERTICALSPACING) = true
        then ((some PlatformEvent.DisplaySettingsChanged, true)
          : Option PlatformEvent × Bool)
        else (none, true)).1 = some PlatformEvent.DisplaySettingsChanged
      rw [if_pos hb]
    | false =>
      have hp : ¬ (w % 2 ^ 32 = SPI_SETWORKAREA
          ∨ w % 2 ^ 32 = SPI_ICONVERTICALSPACING) := by
        intro hc
        rcases hc with hc | hc <;> rw [hc] at hb <;> simp at hb
      rw [if_neg hp]
      show (if (w % 2 ^ 32 == SPI_SETWORKAREA
          || w % 2 ^ 32 == SPI_ICONVERTICALSPACING) = true
        then ((some PlatformEvent.DisplaySettingsChanged, true)
          : Option PlatformEvent × Bool)
        else (none, true)).1 = none
      rw [if_neg (by rw [hb]; exact Bool.false_ne_true)]
  · cases hb : (w % 2 ^ 32 == DBT_DEVNODES_CHANGED) with
    | true =>
      have hp : w % 2 ^ 32 = DBT_DEVNODES_CHANGED := eq_of_beq hb
      rw [if_pos hp]
      show (if (w % 2 ^ 32 == DBT_DEVNODES_CHANGED) = true
        then ((some PlatformEvent.DisplaySettingsChanged, true)
          : Option PlatformEvent × Bool)
        else (none, true)).1 = some PlatformEvent.DisplaySettingsChanged
      rw [if_pos hb]
    | false =>
      have hp : ¬ w % 2 ^ 32 = DBT_DEVNODES_CHANGED := by
        intro hc
        rw [hc] at hb
        simp at hb
      rw [if_neg hp]
      show (if (w % 2 ^ 32 == DBT_DEVNODES_CHANGED) = true
        then ((some PlatformEvent.DisplaySettingsChanged, true)
          : Option PlatformEvent × Bool)
        else (none, true)).1 = none
      rw [if_neg (by rw [hb]; exact Bool.false_ne_true)]

/-- Claim C8: a zero-byte fetch, the invalid-size sentinel, or a non-mouse
record type makes handle_input_msg return Ok having emitted nothing and
left the button flags and last-emission timestamp untouched. -/
theorem invalid_record_discarded (env : InputEnv) (st : InputState)
    (hinv : env.raw.resSize = 0 ∨ env.raw.rawInputSize = U32_MAX
      ∨ env.raw.dwType ≠ RIM_TYPEMOUSE) :
    handle_input_msg env st = ⟨st, none, true⟩ := by
  unfold handle_input_msg
  by_cases hthr : wrapSub64 env.eventTime st.lastMouseEventTime < 50
  · rw [if_pos hthr]
  · rw [if_neg hthr, if_pos hinv]

/-- Witness for C8: the non-mouse record at 100 ms is discarded silently. -/
theorem invalid_record_discarded_witness :
    (envBad.raw.resSize = 0 ∨ envBad.raw.rawInputSize = U32_MAX
      ∨ envBad.raw.dwType ≠ RIM_TYPEMOUSE)
    ∧ handle_input_msg envBad st0 = ⟨st0, none, true⟩ :=
  ⟨by decide, invalid_record_discarded envBad st0 (by decide)⟩

/-- Claim C9: after a first destroy call has completed, a further destroy
call is a no-op: it returns Ok and attempts no second join, whatever the
first call did. -/
theorem destroy_idempotent (wt : Option WindowThread) :
    EventWindow.destroy (EventWindow.destroy wt).windowThread
      = ⟨none, Except.ok (), false⟩ := by
  rw [destroy_windowThread_none]
  rfl

/-- Claim C10: when one record carries both the down and the up transition
of the same button, the persisted flag for that button ends false: the up
store runs after the down store. -/
theorem button_up_applied_after_down (env : InputEnv) (st : InputState)
    (hthr : ¬ wrapSub64 env.eventTime st.lastMouseEventTime < 50)
    (hv : ¬ (env.raw.resSize = 0 ∨ env.raw.rawInputSize = U32_MAX
      ∨ env.raw.dwType ≠ RIM_TYPEMOUSE)) :
    (has_flags env.raw.usButtonFlags RI_MOUSE_LEFT_BUTTON_DOWN = true →
      has_flags env.raw.usButtonFlags RI_MOUSE_LEFT_BUTTON_UP = true →
      (handle_input_msg env st).state.isLMouseDown = false)
    ∧ (has_flags env.raw.usButtonFlags RI_MOUSE_RIGHT_BUTTON_DOWN = true →
      has_flags env.raw.usButtonFlags RI_MOUSE_RIGHT_BUTTON_UP = true →
      (handle_input_msg env st).state.isRMouseDown = false) := by
  have hL := handle_input_msg_isL env st hthr hv
  have hR := handle_input_msg_isR env st hthr hv
  exact ⟨fun h1 h2 => by rw [hL]; simp [updatedL, h2],
    fun h1 h2 => by rw [hR]; simp [updatedR, h2]⟩

/-- Witness for C10: a record with all four transitions leaves both flags
false. -/
theorem button_up_applied_after_down_witness :
    has_flags envBoth.raw.usButtonFlags RI_MOUSE_LEFT_BUTTON_DOWN = true
    ∧ has_flags envBoth.raw.usButtonFlags RI_MOUSE_LEFT_BUTTON_UP = true
    ∧ (handle_input_msg envBoth st0).state.isLMouseDown = false
    ∧ (handle_input_msg envBoth st0).state.isRMouseDown = false :=
  ⟨by decide, by decide,
   (button_up_applied_after_down envBoth st0 (by decide) (by decide)).1
     (by decide) (by decide),
   (button_up_applied_after_down envBoth st0 (by decide) (by decide)).2
     (by decide) (by decide)⟩
